import Mathlib

/-!
Verification of the pharmacy voice bot dialogue core (src/main.py).

The embedding models the pure dialogue logic of the two webhook endpoints
`incoming_call` and `process_recording`: session history and reprompt
counter are passed explicitly, the SQLite store's read-modify-write is the
state threading, and the external collaborators (geocoding/places lookup
and the GPT completion call) are oracle parameters.  Text-to-speech only
changes the audio rendering of a reply, never the reply text, the stored
history, the counters or call termination, so it is not modelled.
-/

namespace PharmacyBot

/-- One stored conversation message.  The source keeps messages as
`{"role": ..., "content": ...}` dicts; slot annotations are system-role
messages whose content is `json.dumps` of a single-key mapping, modelled
here as the key/value pair itself. -/
inductive Msg where
  | user (content : String)
  | assistant (content : String)
  | system (key : String) (value : String)
  deriving DecidableEq, Repr

/-- Result of the external geocode + places lookup used by the
"nearest pharmacy" subflow (src/main.py lines 560-645). -/
inductive GeoOutcome where
  | geocodeFail
  | placesFail
  | ok (places : List (String × String))
  deriving DecidableEq, Repr

/-- Outcome of one processed utterance: the spoken reply, whether the
TwiML response hangs up the call, the stored history after the turn, the
stored reprompt counter after the turn, and whether this turn logged a
vaccine booking (`VACCINE_BOOKED`). -/
structure TurnResult where
  reply : String
  terminate : Bool
  history : List Msg
  reprompts : Nat
  booked : Bool
  deriving DecidableEq, Repr

/-- HTTP-level outcome of `process_recording`. -/
inductive Response where
  | badRequest
  | speak (result : TurnResult)
  deriving DecidableEq, Repr

/-- HTTP-level outcome of `incoming_call`. -/
inductive GreetResponse where
  | badRequest
  | speak (reply : String) (terminate : Bool)
  deriving DecidableEq, Repr

/-- Python truthiness test `not call_sid` on the form value: true when the
field is absent or the empty string. -/
def isFalsy : Option String → Bool
  | none => true
  | some s => s == ""

/-- Python `text.lower()` (the inputs of interest are ASCII). -/
def lowerStr (s : String) : String := ⟨s.data.map Char.toLower⟩

/-- Python `pat in hay` substring containment. -/
def containsSubstr (hay pat : String) : Bool := decide (pat.data <:+: hay.data)

/-- Drop the characters satisfying `p` from both ends of a list. -/
def dropBoth (p : Char → Bool) (l : List Char) : List Char :=
  ((l.dropWhile p).reverse.dropWhile p).reverse

/-- Python `s.strip()`: whitespace removed from both ends. -/
def trimStr (s : String) : String := ⟨dropBoth Char.isWhitespace s.data⟩

/-- Python `s.startswith(pre)`. -/
def startsWithStr (s pre : String) : Bool := pre.data.isPrefixOf s.data

/-- Python slice `s[n:]` (by characters). -/
def dropStr (s : String) (n : Nat) : String := ⟨s.data.drop n⟩

/-- Python `s.replace(" ", "")`: with a single-character pattern and empty
replacement this removes every space. -/
def removeSpaces (s : String) : String := ⟨s.data.filter (fun c => !(c == ' '))⟩

/-- Python `sep.join(xs)`. -/
def joinSep (sep : String) : List String → String
  | [] => ""
  | [x] => x
  | x :: y :: xs => x ++ sep ++ joinSep sep (y :: xs)

/-- Silence test at src/main.py line 339:
`not user_speech or user_speech.strip() == ""`. -/
def isSilent : Option String → Bool
  | none => true
  | some t => t == "" || trimStr t == ""

/-- Confidence conversion at lines 330-333: missing value defaults to 0. -/
def confOf (c : Option ℚ) : ℚ := c.getD 0

/-- `classify_intent` (src/main.py lines 220-234): fixed-priority
keyword-substring matcher over the lower-cased text, first match wins. -/
def classify_intent (text : String) : String :=
  let lower := lowerStr text
  if ["vaccine", "shot", "vaccination", "schedule a vaccine"].any (fun kw => containsSubstr lower kw) then "VACCINE"
  else if ["refill", "renew", "prescription"].any (fun kw => containsSubstr lower kw) then "REFILL"
  else if ["hour", "open", "close", "time"].any (fun kw => containsSubstr lower kw) then "HOURS"
  else if ["nearest pharmacy", "closest pharmacy", "find pharmacy", "pharmacy near me"].any (fun kw => containsSubstr lower kw) then "NEAREST"
  else "GENERAL"

/-- Reply texts copied verbatim from src/main.py. -/
def silenceReprompt : String := "I’m sorry, I didn’t hear anything. Could you please repeat?"

def silenceGoodbye : String := "We did not receive any input. Goodbye."

def lowConfReprompt : String := "I’m sorry, I didn’t catch that clearly. Could you please repeat?"

def greetingText : String := "Hello, thank you for calling the pharmacy. How can I help you today?"

def vaccineQ : String := "Which vaccine would you like? Please say the vaccine name."

def nameQ : String := "Got it. And can I have your full name, please?"

def dateQ : String := "Thank you. Finally, on which date would you like to book your appointment? Please say the date."

def refillReply : String := "Certainly. What is your prescription number?"

def hoursReply : String := "Our pharmacy is open Monday to Friday, 9 AM to 6 PM, and Saturday 10 AM to 4 PM. Anything else I can help you with?"

def postalQ : String := "Sure—what’s your postal code (Canada)?"

def gptApology : String := "I’m sorry, I’m having trouble right now. Please try again later."

def notSureReply : String := "I’m sorry, I’m not sure what you wish to correct. Could you please restate?"

def geoFailReply : String := "I’m sorry, I couldn’t look up that postal code. Could you please repeat your postal code?"

def placesFailReply : String := "I’m sorry, I couldn’t find nearby pharmacies for that postal code. Could you please provide a different postal code?"

/-- The correction-phrase detection at lines 396-398: the lower-cased text
starts with one of "actually", "i mean", "sorry", "change". -/
def correctionKeywords : List String := ["actually", "i mean", "sorry", "change"]

def isCorrection (user_text : String) : Bool :=
  correctionKeywords.any (fun k => startsWithStr (lowerStr user_text) k)

/-- Python `s.strip(" ,:")`: drop any of the three characters from both
ends. -/
def stripPunct (s : String) : String :=
  let cs : List Char := [' ', ',', ':']
  ⟨((s.data.dropWhile (fun c => cs.contains c)).reverse.dropWhile (fun c => cs.contains c)).reverse⟩

/-- Lines 405-409: remove the first matching correction keyword from the
front of the original text and strip `" ,:"`; if no keyword matches the
text is kept as is (dead in practice, the branch is guarded). -/
def correctionCut (user_text : String) : String :=
  match correctionKeywords.find? (fun k => startsWithStr (lowerStr user_text) k) with
  | some k => stripPunct (dropStr user_text k.data.length)
  | none => user_text

/-- Index of the most recent system-role message (lines 412-425; in this
model every system message is a single-key mapping, as every system write
in the source is). -/
def lastSysIdx : List Msg → Option Nat
  | [] => none
  | m :: rest =>
    match lastSysIdx rest with
    | some i => some (i + 1)
    | none => match m with
      | .system _ _ => some 0
      | _ => none

/-- The slot key of the system message at a given index (defined only when
`lastSysIdx` returned the index). -/
def sysKeyAt (h : List Msg) (idx : Nat) : String :=
  match h.get? idx with
  | some (.system k _) => k
  | _ => ""

/-- The merged slot mapping (lines 442-448 and 776-782):
`slot_data.update(json.loads(content))` over system messages in order, so
the most recent entry for a key wins. -/
def getSlot (h : List Msg) (k : String) : Option String :=
  (h.filterMap (fun m => match m with
    | .system k2 v => if k2 == k then some v else none
    | _ => none)).getLast?

/-- `history[-2]["content"] if len(history) >= 2 and
history[-2]["role"] == "assistant" else ""` (lines 554 and 757). -/
def lastAssistant2 (h : List Msg) : String :=
  if 2 ≤ h.length then
    match h.get? (h.length - 2) with
    | some (.assistant c) => c
    | _ => ""
  else ""

/-- Intent dispatch F plus the shared append/return step H
(lines 831-926): the sub-flow replies computed in branch E fall through to
this block un-guarded, so the reply spoken is always the one chosen here. -/
def intentReply (user_text : String) (gpt : Option String) : String :=
  let intent := classify_intent user_text
  if intent == "VACCINE" then vaccineQ
  else if intent == "REFILL" then refillReply
  else if intent == "HOURS" then hoursReply
  else if intent == "NEAREST" then postalQ
  else match gpt with
    | some r => trimStr r
    | none => gptApology

/-- The shared "append the reply to history, save, respond" step
(lines 500-502, 914-926 and the final hangup variants): the reply is
spoken and appended as an assistant message. -/
def withReply (r : String) (terminate : Bool) (h2 : List Msg) (booked : Bool) : TurnResult :=
  ⟨r, terminate, h2 ++ [.assistant r], 0, booked⟩

def intentTurn (user_text : String) (h : List Msg) (gpt : Option String) : TurnResult :=
  withReply (intentReply user_text gpt) false h false

/-- Branch E third arm (lines 773-829): the date answer confirms the
booking using defaults for absent slots, hangs up, and logs
`VACCINE_BOOKED`. -/
def bookingReply (user_text : String) (h : List Msg) : String :=
  "Thank you. Your " ++ (getSlot h "vaccine_type").getD "your vaccine" ++ " appointment for "
    ++ (getSlot h "patient_name").getD "the patient" ++ " on " ++ user_text ++ " is booked. Goodbye."

def bookingTurn (user_text : String) (h : List Msg) : TurnResult :=
  withReply (bookingReply user_text h) true h true

/-- Branches D/E/F for a valid non-correction utterance: the nearest-flow
check first, then the vaccine-flow prompt matches (which only append a
slot and fall through), the date branch, or plain intent dispatch. -/
def vaccineFlowTurn (user_text : String) (h : List Msg) (gpt : Option String) : TurnResult :=
  if startsWithStr (lastAssistant2 h) "Which vaccine would you like" then
    intentTurn user_text (h ++ [.system "vaccine_type" user_text]) gpt
  else if startsWithStr (lastAssistant2 h) "Got it. And can I have your full name" then
    intentTurn user_text (h ++ [.system "patient_name" user_text]) gpt
  else if startsWithStr (lastAssistant2 h) "Thank you. Finally, on which date" then
    bookingTurn user_text h
  else intentTurn user_text h gpt

/-- The "nearest pharmacy" subflow (lines 553-754): store the postal code
slot (spaces removed) and answer from the geocode/places oracle; every
path keeps the call going. -/
def nearestReply (geo : GeoOutcome) : String :=
  match geo with
  | .geocodeFail => geoFailReply
  | .placesFail => placesFailReply
  | .ok places =>
    "Here are the three closest pharmacies to you: "
      ++ joinSep "; " ((places.take 3).map (fun p => p.1 ++ " at " ++ p.2))
      ++ ". Is there anything else I can help you with?"

def nearestTurn (user_text : String) (h : List Msg) (geo : GeoOutcome) : TurnResult :=
  withReply (nearestReply geo) false (h ++ [.system "nearest_postal" (removeSpaces user_text)]) false

/-- The correction branch (lines 395-551): rewrite the most recent slot
with the corrected text and re-ask (or, for a desired-date correction,
confirm the booking and hang up). -/
def correctionResult (key corrected : String) (h2 : List Msg) : TurnResult :=
  if key == "vaccine_type" then
    withReply s!"Sure—so you want the {corrected} vaccine. May I have your full name, please?" false h2 false
  else if key == "patient_name" then
    withReply s!"Thank you. Noted your name as {corrected}. On which date would you like to book your appointment?" false h2 false
  else if key == "desired_date" then
    withReply s!"Alright, setting your appointment date to {corrected}. Your booking is confirmed—thank you. Goodbye." true h2 true
  else if key == "nearest_postal" then
    withReply s!"Got it—your postal code is {corrected}. Looking up nearest pharmacies..." false h2 false
  else
    withReply notSureReply false h2 false

def correctionTurn (user_text : String) (h : List Msg) : TurnResult :=
  match lastSysIdx h with
  | none => withReply notSureReply false h false
  | some idx =>
    correctionResult (sysKeyAt h idx) (correctionCut user_text)
      (h.set idx (.system (sysKeyAt h idx) (correctionCut user_text)))

/-- Processing of a valid utterance (text present, confidence at least
0.5), after the counter reset at line 392: correction check, then the
postal-code subflow, then the vaccine-flow / intent logic. -/
def validTurn (user_text : String) (h : List Msg) (geo : GeoOutcome) (gpt : Option String) : TurnResult :=
  if isCorrection user_text then correctionTurn user_text h
  else if startsWithStr (lastAssistant2 h) "Sure—what’s your postal code" then nearestTurn user_text h geo
  else vaccineFlowTurn user_text h gpt

/-- One full turn of `process_recording` after the CallSid check:
silence branch A (reprompt while the counter is below 3, hang up
otherwise), low-confidence branch B, then the valid-utterance logic with
the counter reset to 0. -/
def processTurn (speech : Option String) (conf : Option ℚ) (h : List Msg)
    (reprompts : Nat) (geo : GeoOutcome) (gpt : Option String) : TurnResult :=
  if isSilent speech then
    if reprompts < 3 then ⟨silenceReprompt, false, h, reprompts + 1, false⟩
    else ⟨silenceGoodbye, true, h, reprompts, false⟩
  else if confOf conf < mkRat 1 2 then
    ⟨lowConfReprompt, false, h, reprompts, false⟩
  else
    validTurn (trimStr (speech.getD "")) h geo gpt

/-- The `/process-recording` endpoint (lines 307-970): a falsy CallSid is
rejected with HTTP 400 before anything else happens. -/
def process_recording (callSid : Option String) (speech : Option String)
    (conf : Option ℚ) (h : List Msg) (reprompts : Nat) (geo : GeoOutcome)
    (gpt : Option String) : Response :=
  if isFalsy callSid then .badRequest
  else .speak (processTurn speech conf h reprompts geo gpt)

/-- The `/incoming-call` endpoint (lines 237-303): a falsy CallSid is
rejected with HTTP 400; otherwise the greeting is spoken inside a gather
and the call continues. -/
def incoming_call (callSid : Option String) : GreetResponse :=
  if isFalsy callSid then .badRequest
  else .speak greetingText false

/-- A stored message whose role is "assistant" or "system" (not "user"). -/
def roleOk : Msg → Bool
  | .assistant _ => true
  | .system _ _ => true
  | .user _ => false

/-- The intent matcher as claim C6 words it, amended in its NEAREST rule:
the source requires one of four whole phrases, not the bare substring
"pharmacy" (and its extra vaccine keyword "schedule a vaccine" is
redundant, being a superstring of "vaccine"). -/
def classifyIntentSpec (text : String) : String :=
  let lower := lowerStr text
  if ["vaccine", "vaccination", "shot"].any (fun kw => containsSubstr lower kw) then "VACCINE"
  else if ["refill", "renew", "prescription"].any (fun kw => containsSubstr lower kw) then "REFILL"
  else if ["hour", "open", "close", "time"].any (fun kw => containsSubstr lower kw) then "HOURS"
  else if ["nearest pharmacy", "closest pharmacy", "find pharmacy", "pharmacy near me"].any (fun kw => containsSubstr lower kw) then "NEAREST"
  else "GENERAL"

/-! ## Helper lemmas -/

theorem containsSubstr_of_schedule (l : String)
    (h : containsSubstr l "schedule a vaccine" = true) :
    containsSubstr l "vaccine" = true := by
  unfold containsSubstr at h ⊢
  simp only [decide_eq_true_eq] at h ⊢
  exact List.IsInfix.trans (by decide) h

theorem withReply_reprompts (r : String) (t : Bool) (h2 : List Msg) (b : Bool) :
    (withReply r t h2 b).reprompts = 0 := rfl

theorem withReply_booked (r : String) (t : Bool) (h2 : List Msg) (b : Bool) :
    (withReply r t h2 b).booked = b := rfl

theorem correctionResult_reprompts (k c : String) (h2 : List Msg) :
    (correctionResult k c h2).reprompts = 0 := by
  unfold correctionResult
  (repeat' split) <;> rfl

theorem correctionResult_booked_eq (k c : String) (h2 : List Msg) :
    (correctionResult k c h2).booked = (correctionResult k c h2).terminate := by
  unfold correctionResult
  (repeat' split) <;> rfl

theorem correctionTurn_reprompts (u : String) (h : List Msg) :
    (correctionTurn u h).reprompts = 0 := by
  unfold correctionTurn
  cases hls : lastSysIdx h with
  | none => rfl
  | some idx => exact correctionResult_reprompts _ _ _

theorem correctionTurn_booked_eq (u : String) (h : List Msg) :
    (correctionTurn u h).booked = (correctionTurn u h).terminate := by
  unfold correctionTurn
  cases hls : lastSysIdx h with
  | none => rfl
  | some idx => exact correctionResult_booked_eq _ _ _

theorem vaccineFlowTurn_reprompts (u : String) (h : List Msg) (g : Option String) :
    (vaccineFlowTurn u h g).reprompts = 0 := by
  unfold vaccineFlowTurn
  (repeat' split) <;> rfl

theorem vaccineFlowTurn_booked_eq (u : String) (h : List Msg) (g : Option String) :
    (vaccineFlowTurn u h g).booked = (vaccineFlowTurn u h g).terminate := by
  unfold vaccineFlowTurn
  (repeat' split) <;> rfl

theorem validTurn_reprompts (u : String) (h : List Msg) (geo : GeoOutcome) (g : Option String) :
    (validTurn u h geo g).reprompts = 0 := by
  unfold validTurn
  split
  · exact correctionTurn_reprompts u h
  · split
    · rfl
    · exact vaccineFlowTurn_reprompts u h g

theorem validTurn_booked_eq (u : String) (h : List Msg) (geo : GeoOutcome) (g : Option String) :
    (validTurn u h geo g).booked = (validTurn u h geo g).terminate := by
  unfold validTurn
  split
  · exact correctionTurn_booked_eq u h
  · split
    · rfl
    · exact vaccineFlowTurn_booked_eq u h g

theorem all_roleOk_set (h : List Msg) (i : Nat) (m : Msg) (hm : roleOk m = true)
    (hh : h.all roleOk = true) : (h.set i m).all roleOk = true := by
  rw [List.all_eq_true] at hh ⊢
  intro x hx
  rcases List.mem_or_eq_of_mem_set hx with h1 | h2
  · exact hh x h1
  · rw [h2]; exact hm

theorem withReply_roles (r : String) (t : Bool) (h2 : List Msg) (b : Bool)
    (hh : h2.all roleOk = true) : (withReply r t h2 b).history.all roleOk = true := by
  simp [withReply, List.all_append, hh, roleOk]

theorem all_roleOk_snoc_system (h : List Msg) (k v : String)
    (hh : h.all roleOk = true) : (h ++ [Msg.system k v]).all roleOk = true := by
  simp [List.all_append, hh, roleOk]

theorem correctionResult_roles (k c : String) (h2 : List Msg)
    (hh : h2.all roleOk = true) : (correctionResult k c h2).history.all roleOk = true := by
  unfold correctionResult
  (repeat' split) <;> exact withReply_roles _ _ _ _ hh

theorem correctionTurn_roles (u : String) (h : List Msg)
    (hh : h.all roleOk = true) : (correctionTurn u h).history.all roleOk = true := by
  unfold correctionTurn
  cases hls : lastSysIdx h with
  | none => exact withReply_roles _ _ _ _ hh
  | some idx =>
    exact correctionResult_roles _ _ _ (all_roleOk_set h idx _ rfl hh)

theorem vaccineFlowTurn_roles (u : String) (h : List Msg) (g : Option String)
    (hh : h.all roleOk = true) : (vaccineFlowTurn u h g).history.all roleOk = true := by
  unfold vaccineFlowTurn intentTurn bookingTurn
  (repeat' split) <;>
    first
      | exact withReply_roles _ _ _ _ hh
      | exact withReply_roles _ _ _ _ (all_roleOk_snoc_system h _ _ hh)

theorem validTurn_roles (u : String) (h : List Msg) (geo : GeoOutcome) (g : Option String)
    (hh : h.all roleOk = true) : (validTurn u h geo g).history.all roleOk = true := by
  unfold validTurn
  split
  · exact correctionTurn_roles u h hh
  · split
    · exact withReply_roles _ _ _ _ (all_roleOk_snoc_system h _ _ hh)
    · exact vaccineFlowTurn_roles u h g hh

/-! ## Claim theorems -/

/-- Claim C1, counterexample: the claim says an utterance containing the
urgency keyword "emergency" is classified as Escalation and the call is
terminated; on the code, "this is an emergency" at confidence 0.99 with no
active flow does not terminate the call. -/
theorem C1_escalation_counterexample :
    (processTurn (some "this is an emergency") (some (mkRat 99 100)) [] 0
      GeoOutcome.geocodeFail (some "Okay, let me help.")).terminate = false := by decide

/-- Claim C1 (amended): the code contains no urgency-keyword handling at
all; an utterance containing "emergency" goes through the ordinary
pipeline — "this is an emergency" at confidence 0.99 with empty history is
classified GENERAL, handled by the plain intent/GPT-fallback branch, and
the call continues. -/
theorem C1_no_escalation_branch (r : Nat) (geo : GeoOutcome) (gpt : Option String) :
    classify_intent "this is an emergency" = "GENERAL" ∧
    processTurn (some "this is an emergency") (some (mkRat 99 100)) [] r geo gpt
      = intentTurn "this is an emergency" [] gpt ∧
    (intentTurn "this is an emergency" [] gpt).terminate = false :=
  ⟨by decide, rfl, rfl⟩

/-- Claim C2, counterexample: a booking is logged (and the call
terminated) in a turn whose session history carries none of the three
slots — the date-answer branch fires on the previous-but-one prompt text
alone and substitutes defaults for the missing vaccine type and patient
name. -/
theorem C2_booking_without_slots :
    (processTurn (some "next Monday") (some (mkRat 19 20))
        [Msg.assistant dateQ, Msg.assistant "Okay."] 0 GeoOutcome.geocodeFail none).booked = true ∧
    getSlot [Msg.assistant dateQ, Msg.assistant "Okay."] "vaccine_type" = none ∧
    getSlot [Msg.assistant dateQ, Msg.assistant "Okay."] "patient_name" = none ∧
    getSlot [Msg.assistant dateQ, Msg.assistant "Okay."] "desired_date" = none ∧
    (processTurn (some "next Monday") (some (mkRat 19 20))
        [Msg.assistant dateQ, Msg.assistant "Okay."] 0 GeoOutcome.geocodeFail none).reply
      = "Thank you. Your your vaccine appointment for the patient on next Monday is booked. Goodbye." := by
  refine ⟨by decide, by decide, by decide, by decide, by decide⟩

/-- Claim C2 (amended): a booking is created exactly when a date-answer
branch runs, regardless of slot presence (absent slots are replaced by
default placeholders in the confirmation); every booking turn terminates
the call, so at most one booking is created per call. -/
theorem C2_booking_turn_terminates (speech : Option String) (conf : Option ℚ) (h : List Msg)
    (r : Nat) (geo : GeoOutcome) (gpt : Option String)
    (hb : (processTurn speech conf h r geo gpt).booked = true) :
    (processTurn speech conf h r geo gpt).terminate = true := by
  unfold processTurn at hb ⊢
  by_cases h1 : isSilent speech = true
  · rw [if_pos h1] at hb ⊢
    by_cases h2 : r < 3
    · rw [if_pos h2] at hb; simp at hb
    · rw [if_neg h2] at hb ⊢
  · rw [if_neg h1] at hb ⊢
    by_cases h2 : confOf conf < mkRat 1 2
    · rw [if_pos h2] at hb; simp at hb
    · rw [if_neg h2] at hb ⊢
      rw [← validTurn_booked_eq]
      exact hb

/-- Claim C2 witness: a concrete booking turn does terminate the call. -/
theorem C2_booking_turn_terminates_witness :
    (processTurn (some "next Tuesday") (some (mkRat 9 10))
      [Msg.assistant dateQ, Msg.assistant hoursReply] 0 GeoOutcome.geocodeFail none).terminate = true :=
  C2_booking_turn_terminates (some "next Tuesday") (some (mkRat 9 10))
    [Msg.assistant dateQ, Msg.assistant hoursReply] 0 GeoOutcome.geocodeFail none (by decide)

/-- Claim C3: a silent turn at reprompt count 0 emits the reprompt text,
sets the counter to 1 and continues; a silence handled at count 2 raises
the counter to 3 and continues, and the next silent turn (arriving at
count 3) emits the goodbye, terminates the call, and leaves the counter at
3 (cap). -/
theorem C3_silence_policy (h : List Msg) (speech : Option String) (conf : Option ℚ)
    (geo : GeoOutcome) (gpt : Option String) (hs : isSilent speech = true) :
    processTurn speech conf h 0 geo gpt = ⟨silenceReprompt, false, h, 1, false⟩ ∧
    processTurn speech conf h 2 geo gpt = ⟨silenceReprompt, false, h, 3, false⟩ ∧
    processTurn speech conf h 3 geo gpt = ⟨silenceGoodbye, true, h, 3, false⟩ := by
  unfold processTurn
  rw [hs]
  norm_num

/-- Claim C3 witness at the empty utterance. -/
theorem C3_silence_policy_witness :
    processTurn (some "") none [] 0 GeoOutcome.geocodeFail none = ⟨silenceReprompt, false, [], 1, false⟩ ∧
    processTurn (some "") none [] 2 GeoOutcome.geocodeFail none = ⟨silenceReprompt, false, [], 3, false⟩ ∧
    processTurn (some "") none [] 3 GeoOutcome.geocodeFail none = ⟨silenceGoodbye, true, [], 3, false⟩ :=
  C3_silence_policy [] (some "") none GeoOutcome.geocodeFail none (by decide)

/-- Claim C4, counterexample: starting from reprompt count 0, the third
consecutive silence does not terminate the call — it still emits the
reprompt text (counts evolve 0 → 1 → 2 → 3), contradicting the claim that
the third consecutive Silence classification emits the goodbye. -/
theorem C4_third_silence_counterexample :
    (processTurn none none [] 0 GeoOutcome.geocodeFail none).reprompts = 1 ∧
    (processTurn none none [] 1 GeoOutcome.geocodeFail none).reprompts = 2 ∧
    processTurn none none [] 2 GeoOutcome.geocodeFail none
      = ⟨silenceReprompt, false, [], 3, false⟩ := by
  refine ⟨by decide, by decide, by decide⟩

/-- Claim C4 (amended): for a session starting at reprompt count 0, the
first three consecutive silences emit the "didn't hear you" reprompt and
increment the counter (to 1, 2, 3), and the fourth consecutive silence
emits the goodbye and terminates the call. -/
theorem C4_fourth_silence_terminates (h : List Msg) (geo : GeoOutcome) (gpt : Option String) :
    processTurn none none h 0 geo gpt = ⟨silenceReprompt, false, h, 1, false⟩ ∧
    processTurn none none h 1 geo gpt = ⟨silenceReprompt, false, h, 2, false⟩ ∧
    processTurn none none h 2 geo gpt = ⟨silenceReprompt, false, h, 3, false⟩ ∧
    processTurn none none h 3 geo gpt = ⟨silenceGoodbye, true, h, 3, false⟩ :=
  ⟨rfl, rfl, rfl, rfl⟩

/-- Claim C5: a Valid utterance (non-silent, confidence at least 0.5)
always leaves the stored reprompt counter at 0, whichever
correction/slot/intent/GPT branch handles it. -/
theorem C5_valid_resets_reprompts (speech : Option String) (conf : Option ℚ) (h : List Msg)
    (r : Nat) (geo : GeoOutcome) (gpt : Option String)
    (hns : isSilent speech = false) (hc : ¬ confOf conf < mkRat 1 2) :
    (processTurn speech conf h r geo gpt).reprompts = 0 := by
  unfold processTurn
  rw [hns]
  simp only [Bool.false_eq_true, if_false, if_neg hc]
  exact validTurn_reprompts _ _ _ _

/-- Claim C5 witness at a concrete valid utterance arriving with counter
2. -/
theorem C5_valid_resets_reprompts_witness :
    (processTurn (some "what are your hours") (some (mkRat 9 10)) [] 2
      GeoOutcome.geocodeFail none).reprompts = 0 :=
  C5_valid_resets_reprompts (some "what are your hours") (some (mkRat 9 10)) [] 2
    GeoOutcome.geocodeFail none (by decide) (by decide)

/-- Claim C6, counterexample: "pharmacy" contains the literal substring
"pharmacy" and none of the vaccine/refill/hours keywords, yet
`classify_intent` returns GENERAL, not NEAREST as the claim requires. -/
theorem C6_pharmacy_counterexample :
    containsSubstr (lowerStr "pharmacy") "pharmacy" = true ∧
    (["vaccine", "vaccination", "shot", "refill", "renew", "prescription",
        "hour", "open", "close", "time"].any
      (fun kw => containsSubstr (lowerStr "pharmacy") kw)) = false ∧
    classify_intent "pharmacy" = "GENERAL" := by
  refine ⟨by decide, by decide, by decide⟩

/-- Claim C6 (amended): the classifier is the stated fixed-priority,
first-match keyword matcher over the lower-cased text, except that the
NEAREST tier matches one of the phrases "nearest pharmacy",
"closest pharmacy", "find pharmacy", "pharmacy near me" rather than the
bare substring "pharmacy". -/
theorem C6_classifier_characterization (s : String) :
    classify_intent s = classifyIntentSpec s := by
  unfold classify_intent classifyIntentSpec
  simp only [List.any_cons, List.any_nil, Bool.or_false]
  cases h1 : containsSubstr (lowerStr s) "vaccine" <;>
    cases h2 : containsSubstr (lowerStr s) "shot" <;>
      cases h3 : containsSubstr (lowerStr s) "vaccination" <;>
        simp only [Bool.false_or, Bool.true_or, Bool.or_true, if_true]
  cases h4 : containsSubstr (lowerStr s) "schedule a vaccine"
  · rfl
  · exact absurd (containsSubstr_of_schedule _ h4) (by simp [h1])

/-- Claim C7, failing input: with the vaccine-type question as the most
recent assistant prompt, the valid utterance "flu shot" (confidence 0.8)
does not store the slot and the reply is the vaccine question again, not
the name request; and even when the history-minus-two check does match,
the stored slot's reply is overwritten by the un-guarded intent dispatch,
which re-asks the vaccine question. -/
theorem C7_vaccine_flow_broken :
    processTurn (some "flu shot") (some (mkRat 4 5)) [Msg.assistant vaccineQ] 0
        GeoOutcome.geocodeFail none
      = ⟨vaccineQ, false, [Msg.assistant vaccineQ, Msg.assistant vaccineQ], 0, false⟩ ∧
    processTurn (some "flu shot") (some (mkRat 4 5))
        [Msg.assistant vaccineQ, Msg.assistant vaccineQ] 0 GeoOutcome.geocodeFail none
      = ⟨vaccineQ, false, [Msg.assistant vaccineQ, Msg.assistant vaccineQ,
          Msg.system "vaccine_type" "flu shot", Msg.assistant vaccineQ], 0, false⟩ := by
  refine ⟨by decide, by decide⟩

/-- Claim C8: a non-silent utterance below the 0.5 confidence threshold
produces exactly the "didn't catch that" reprompt and nothing else: the
history is unchanged (no slot stored), the silence counter is unchanged,
and the call continues — for every counter value, hence no cap. -/
theorem C8_low_confidence_discard (speech : Option String) (conf : Option ℚ) (h : List Msg)
    (r : Nat) (geo : GeoOutcome) (gpt : Option String)
    (hns : isSilent speech = false) (hc : confOf conf < mkRat 1 2) :
    processTurn speech conf h r geo gpt = ⟨lowConfReprompt, false, h, r, false⟩ := by
  unfold processTurn
  rw [hns]
  simp only [Bool.false_eq_true, if_false, if_pos hc]

/-- Claim C8 witness at confidence 0.31 and counter 5. -/
theorem C8_low_confidence_discard_witness :
    processTurn (some "mumble") (some (mkRat 31 100)) [Msg.assistant greetingText] 5
        GeoOutcome.geocodeFail none
      = ⟨lowConfReprompt, false, [Msg.assistant greetingText], 5, false⟩ :=
  C8_low_confidence_discard (some "mumble") (some (mkRat 31 100)) [Msg.assistant greetingText] 5
    GeoOutcome.geocodeFail none (by decide) (by decide)

/-- Claim C9: both endpoints answer HTTP 400 exactly when the call
identifier is missing (absent or empty form value), and in every other
case they produce a spoken reply rather than an error response. -/
theorem C9_missing_call_identifier (cs : Option String) (speech : Option String) (conf : Option ℚ)
    (h : List Msg) (r : Nat) (geo : GeoOutcome) (gpt : Option String) :
    (process_recording cs speech conf h r geo gpt = Response.badRequest ↔ isFalsy cs = true) ∧
    (incoming_call cs = GreetResponse.badRequest ↔ isFalsy cs = true) ∧
    (isFalsy cs = false →
      process_recording cs speech conf h r geo gpt
          = Response.speak (processTurn speech conf h r geo gpt) ∧
        incoming_call cs = GreetResponse.speak greetingText false) := by
  cases hc : isFalsy cs <;> simp [process_recording, incoming_call, hc]

/-- Claim C9 witness: a request without CallSid is rejected with 400 on
both endpoints. -/
theorem C9_missing_call_identifier_witness :
    process_recording none (some "hi") none [] 0 GeoOutcome.geocodeFail none
        = Response.badRequest ∧
    incoming_call (some "") = GreetResponse.badRequest :=
  ⟨(C9_missing_call_identifier none (some "hi") none [] 0 GeoOutcome.geocodeFail none).1.mpr
      (by decide),
    ((C9_missing_call_identifier (some "") (some "hi") none [] 0
      GeoOutcome.geocodeFail none).2.1).mpr (by decide)⟩

/-- Claim C10: processing a turn preserves the invariant that the stored
history holds only assistant- and system-role messages — caller utterances
are never appended as user-role messages. -/
theorem C10_history_roles (speech : Option String) (conf : Option ℚ) (h : List Msg)
    (r : Nat) (geo : GeoOutcome) (gpt : Option String) (hh : h.all roleOk = true) :
    (processTurn speech conf h r geo gpt).history.all roleOk = true := by
  unfold processTurn
  (repeat' split) <;> first | exact hh | exact validTurn_roles _ _ _ _ hh

/-- Claim C10 witness on a concrete slot-filling turn. -/
theorem C10_history_roles_witness :
    ([Msg.assistant vaccineQ, Msg.assistant vaccineQ].all roleOk = true) ∧
    ((processTurn (some "flu shot") (some (mkRat 9 10))
        [Msg.assistant vaccineQ, Msg.assistant vaccineQ] 0 GeoOutcome.geocodeFail
        none).history.all roleOk = true) :=
  ⟨by decide,
    C10_history_roles (some "flu shot") (some (mkRat 9 10))
      [Msg.assistant vaccineQ, Msg.assistant vaccineQ] 0 GeoOutcome.geocodeFail none (by decide)⟩

end PharmacyBot
